import Mathlib

/-!
Verification of the oleg-backend chat server against its specification.

The repository holds near-duplicate iterations of the same server: two in
src/server.js (a first iteration and a second that also acknowledges the
sender) and a strict-validation iteration in src/unnamed/part_000 that
validates identity references before touching the store.  The development
below embeds the HTTP routes and real-time event handlers of those
iterations as pure functions over explicit state (the user store, the
message log, a session's channel-subscription set) and proves the spec's
testable properties about them.  External collaborators are embedded by
their contracts: the credential hash is an abstract function, the document
store's id validation is the 24-hex identity-reference check of the spec,
and the transport's room set is a duplicate-free subscription list.
-/

namespace Oleg

/-- A hex digit as used by the storage engine's 24-hex object-id encoding. -/
def isHexChar (c : Char) : Bool :=
  (('0' ≤ c) && (c ≤ '9')) || (('a' ≤ c) && (c ≤ 'f')) || (('A' ≤ c) && (c ≤ 'F'))

/-- Embeds mongoose.Types.ObjectId.isValid on the string ids this server
receives: a well-formed identity reference is a 24-character hex string. -/
def isValidObjectId (s : String) : Bool :=
  s.length == 24 && s.data.all isHexChar

/-- JS truthiness of an optional string field: `!x` holds when the field is
absent (undefined or null) or the empty string, so `truthy x` is the guard
that lets a handler proceed. -/
def truthy : Option String → Bool
  | none => false
  | some s => s != ""

/-- ObjectId validation lifted to an optional field: an absent id is not a
well-formed identity reference. -/
def isValidOpt : Option String → Bool
  | none => false
  | some s => isValidObjectId s

/-- A stored User document: _id is assigned by the store, password holds the
credential hash, avatarImage is optional. -/
structure User where
  _id : String
  name : String
  email : String
  password : String
  avatarImage : Option String
deriving Repr, DecidableEq

/-- The user summary the routes answer with: _id, name, email and avatarImage,
never the credential hash. -/
structure UserSummary where
  _id : String
  name : String
  email : String
  avatarImage : Option String
deriving Repr, DecidableEq

/-- The summary of a stored user, as serialized by the register, login and
profile-update routes. -/
def summaryOf (u : User) : UserSummary :=
  { _id := u._id, name := u.name, email := u.email, avatarImage := u.avatarImage }

/-- A persisted Message document of the append-only message log. -/
structure Message where
  _id : String
  sender : String
  receiver : String
  text : Option String
  type : String
  file : Option String
  time : Nat
deriving Repr, DecidableEq

/-- One outbound transport emission: io.to(channel).emit(event, payload). -/
structure Emit where
  channel : String
  event : String
  payload : Message
deriving Repr, DecidableEq

/-- The inbound send_message payload {sender, receiver, text, type, file};
every field may be absent. -/
structure SendPayload where
  sender : Option String
  receiver : Option String
  text : Option String
  type : Option String
  file : Option String
deriving Repr, DecidableEq

/-- The Message document a send_message handler persists: the kind defaults to
"text" when the payload's type field is falsy; _id and time are assigned at
persistence. -/
def mkMessage (newId : String) (now : Nat) (s r : String)
    (text ty file : Option String) : Message :=
  { _id := newId, sender := s, receiver := r, text := text,
    type := if truthy ty then ty.getD "text" else "text",
    file := file, time := now }

/-- send_message handler of the strict-validation iteration
(src/unnamed/part_000 lines 148-183): unless both ids pass identity-reference
validation the event is dropped with no effect; on success it appends one
Message to the log and emits receive_message twice to the receiver's channel
and once to the sender's channel.  The handler's try/catch makes it total:
the result is the new log plus the ordered emission list, never an error. -/
def send_message_strict (newId : String) (now : Nat) (p : SendPayload)
    (log : List Message) : List Message × List Emit :=
  if isValidOpt p.sender && isValidOpt p.receiver then
    let s := p.sender.getD ""
    let r := p.receiver.getD ""
    let msg := mkMessage newId now s r p.text p.type p.file
    (log ++ [msg],
      [ { channel := r, event := "receive_message", payload := msg },
        { channel := r, event := "receive_message", payload := msg },
        { channel := s, event := "receive_message", payload := msg } ])
  else (log, [])

/-- send_message handler of the first server.js iteration (lines 120-147):
a falsy sender or receiver is dropped up front; a truthy id that fails the
Message schema's required-ObjectId cast makes msg.save() reject, which the
catch swallows, so nothing is persisted or emitted; on success it appends one
Message and emits receive_message to the receiver's channel only. -/
def send_message_v1 (newId : String) (now : Nat) (p : SendPayload)
    (log : List Message) : List Message × List Emit :=
  if truthy p.sender && truthy p.receiver then
    let s := p.sender.getD ""
    let r := p.receiver.getD ""
    if isValidObjectId s && isValidObjectId r then
      let msg := mkMessage newId now s r p.text p.type p.file
      (log ++ [msg],
        [ { channel := r, event := "receive_message", payload := msg } ])
    else (log, [])
  else (log, [])

/-- send_message handler of the second server.js iteration (lines 280-312):
like the first, but after emitting receive_message to the receiver's channel
it also emits message_sent to the sender's channel. -/
def send_message_v2 (newId : String) (now : Nat) (p : SendPayload)
    (log : List Message) : List Message × List Emit :=
  if truthy p.sender && truthy p.receiver then
    let s := p.sender.getD ""
    let r := p.receiver.getD ""
    if isValidObjectId s && isValidObjectId r then
      let msg := mkMessage newId now s r p.text p.type p.file
      (log ++ [msg],
        [ { channel := r, event := "receive_message", payload := msg },
          { channel := s, event := "message_sent", payload := msg } ])
    else (log, [])
  else (log, [])

/-- A well-formed identity reference is in particular truthy: a 24-character
string is not the empty string. -/
theorem truthy_of_validOpt (o : Option String) (h : isValidOpt o = true) :
    truthy o = true := by
  cases o with
  | none => simp [isValidOpt] at h
  | some s =>
    simp only [truthy, bne_iff_ne, ne_eq, decide_eq_true_eq]
    intro hs
    subst hs
    simp [isValidOpt, isValidObjectId] at h

/-- Claim C1: a send_message event whose sender or receiver id is absent or
fails identity-reference validation is dropped by every iteration's handler:
the message log is unchanged and nothing is emitted to any channel.  Each
handler is a total function returning normally, which is how the source's
early return and try/catch keep any error away from the client. -/
theorem send_message_invalid_dropped (newId : String) (now : Nat)
    (p : SendPayload) (log : List Message)
    (h : isValidOpt p.sender = false ∨ isValidOpt p.receiver = false) :
    send_message_strict newId now p log = (log, []) ∧
    send_message_v1 newId now p log = (log, []) ∧
    send_message_v2 newId now p log = (log, []) := by
  have hb : (isValidOpt p.sender && isValidOpt p.receiver) = false := by
    rcases h with h | h <;> simp [h]
  refine ⟨?_, ?_, ?_⟩
  · simp [send_message_strict, hb]
  · rw [send_message_v1]
    cases ht : (truthy p.sender && truthy p.receiver) with
    | false => simp
    | true =>
      simp only [if_true]
      have hs : truthy p.sender = true := by
        cases hx : truthy p.sender <;> simp [hx] at ht ⊢
      have hr : truthy p.receiver = true := by
        cases hx : truthy p.receiver <;> simp [hx, hs] at ht ⊢
      cases hps : p.sender with
      | none => simp [truthy, hps] at hs
      | some s =>
        cases hpr : p.receiver with
        | none => simp [truthy, hpr] at hr
        | some r =>
          have hvb : (isValidObjectId s && isValidObjectId r) = false := by
            rcases h with h | h
            · simp [isValidOpt, hps] at h
              simp [h]
            · simp [isValidOpt, hpr] at h
              simp [h]
          simp [hps, hpr, hvb]
  · rw [send_message_v2]
    cases ht : (truthy p.sender && truthy p.receiver) with
    | false => simp
    | true =>
      simp only [if_true]
      have hs : truthy p.sender = true := by
        cases hx : truthy p.sender <;> simp [hx] at ht ⊢
      have hr : truthy p.receiver = true := by
        cases hx : truthy p.receiver <;> simp [hx, hs] at ht ⊢
      cases hps : p.sender with
      | none => simp [truthy, hps] at hs
      | some s =>
        cases hpr : p.receiver with
        | none => simp [truthy, hpr] at hr
        | some r =>
          have hvb : (isValidObjectId s && isValidObjectId r) = false := by
            rcases h with h | h
            · simp [isValidOpt, hps] at h
              simp [h]
            · simp [isValidOpt, hpr] at h
              simp [h]
          simp [hps, hpr, hvb]

/-- Concrete instance of C1: a payload whose sender is absent and whose
receiver is the malformed id "abc" leaves an empty log empty and emits
nothing, in every iteration. -/
theorem send_message_invalid_dropped_instance :
    isValidOpt (none : Option String) = false ∧
    send_message_strict "m1" 0 ⟨none, some "abc", some "hi", none, none⟩ [] = ([], []) ∧
    send_message_v1 "m1" 0 ⟨none, some "abc", some "hi", none, none⟩ [] = ([], []) ∧
    send_message_v2 "m1" 0 ⟨none, some "abc", some "hi", none, none⟩ [] = ([], []) := by
  have h := send_message_invalid_dropped "m1" 0
      ⟨none, some "abc", some "hi", none, none⟩ [] (Or.inl (by decide))
  exact ⟨by decide, h.1, h.2.1, h.2.2⟩

/-- Claim C2: with a well-formed sender s and receiver r, every iteration's
send_message appends exactly one Message to the log — the result is the old
log with the single new document at the end — and emits receive_message to
the receiver's channel; the strict iteration also emits receive_message to
the sender's channel. -/
theorem send_message_valid_delivers (newId : String) (now : Nat)
    (s r : String) (text ty file : Option String) (log : List Message)
    (hs : isValidObjectId s = true) (hr : isValidObjectId r = true) :
    (send_message_strict newId now ⟨some s, some r, text, ty, file⟩ log).1
      = log ++ [mkMessage newId now s r text ty file] ∧
    Emit.mk r "receive_message" (mkMessage newId now s r text ty file)
      ∈ (send_message_strict newId now ⟨some s, some r, text, ty, file⟩ log).2 ∧
    Emit.mk s "receive_message" (mkMessage newId now s r text ty file)
      ∈ (send_message_strict newId now ⟨some s, some r, text, ty, file⟩ log).2 ∧
    (send_message_v1 newId now ⟨some s, some r, text, ty, file⟩ log).1
      = log ++ [mkMessage newId now s r text ty file] ∧
    Emit.mk r "receive_message" (mkMessage newId now s r text ty file)
      ∈ (send_message_v1 newId now ⟨some s, some r, text, ty, file⟩ log).2 ∧
    (send_message_v2 newId now ⟨some s, some r, text, ty, file⟩ log).1
      = log ++ [mkMessage newId now s r text ty file] ∧
    Emit.mk r "receive_message" (mkMessage newId now s r text ty file)
      ∈ (send_message_v2 newId now ⟨some s, some r, text, ty, file⟩ log).2 := by
  have hts : truthy (some s) = true := truthy_of_validOpt (some s) (by simpa [isValidOpt] using hs)
  have htr : truthy (some r) = true := truthy_of_validOpt (some r) (by simpa [isValidOpt] using hr)
  refine ⟨?_, ?_, ?_, ?_, ?_, ?_, ?_⟩ <;>
    simp [send_message_strict, send_message_v1, send_message_v2,
      isValidOpt, hs, hr, hts, htr]

/-- Concrete instance of C2: two well-formed 24-hex ids give one appended
Message and a receive_message emission on the receiver's channel. -/
theorem send_message_valid_delivers_instance :
    isValidObjectId "aaaaaaaaaaaaaaaaaaaaaaaa" = true ∧
    isValidObjectId "bbbbbbbbbbbbbbbbbbbbbbbb" = true ∧
    (send_message_strict "m1" 5
        ⟨some "aaaaaaaaaaaaaaaaaaaaaaaa", some "bbbbbbbbbbbbbbbbbbbbbbbb",
          some "hi", none, none⟩ []).1
      = [mkMessage "m1" 5 "aaaaaaaaaaaaaaaaaaaaaaaa" "bbbbbbbbbbbbbbbbbbbbbbbb"
          (some "hi") none none] := by
  refine ⟨by decide, by decide, ?_⟩
  exact (send_message_valid_delivers "m1" 5 "aaaaaaaaaaaaaaaaaaaaaaaa"
    "bbbbbbbbbbbbbbbbbbbbbbbb" (some "hi") none none [] (by decide) (by decide)).1

/-- Claim C3: in the strict-validation iteration a successful send_message
produces exactly the emission list [receiver, receiver, sender], i.e. two
identical consecutive receive_message emits to the receiver's channel
followed by one to the sender's channel; so when the receiver is not the
sender, the emissions addressed to the receiver's channel number exactly two
and those to the sender's channel exactly one. -/
theorem send_message_strict_emits_twice (newId : String) (now : Nat)
    (s r : String) (text ty file : Option String) (log : List Message)
    (hs : isValidObjectId s = true) (hr : isValidObjectId r = true) :
    (send_message_strict newId now ⟨some s, some r, text, ty, file⟩ log).2
      = [ Emit.mk r "receive_message" (mkMessage newId now s r text ty file),
          Emit.mk r "receive_message" (mkMessage newId now s r text ty file),
          Emit.mk s "receive_message" (mkMessage newId now s r text ty file) ] ∧
    (s ≠ r →
      ((send_message_strict newId now ⟨some s, some r, text, ty, file⟩ log).2.filter
          (fun e => e.channel == r)).length = 2 ∧
      ((send_message_strict newId now ⟨some s, some r, text, ty, file⟩ log).2.filter
          (fun e => e.channel == s)).length = 1) := by
  have hemits : (send_message_strict newId now ⟨some s, some r, text, ty, file⟩ log).2
      = [ Emit.mk r "receive_message" (mkMessage newId now s r text ty file),
          Emit.mk r "receive_message" (mkMessage newId now s r text ty file),
          Emit.mk s "receive_message" (mkMessage newId now s r text ty file) ] := by
    simp [send_message_strict, isValidOpt, hs, hr]
  refine ⟨hemits, fun hne => ?_⟩
  rw [hemits]
  have hsr : (s == r) = false := by simp [hne]
  have hrs : (r == s) = false := by simp [Ne.symm hne]
  constructor
  · simp [List.filter, hsr, hrs]
  · simp [List.filter, hsr, hrs]

/-- Concrete instance of C3: with distinct well-formed ids the strict handler
emits three receive_message events, the receiver's channel appearing twice. -/
theorem send_message_strict_emits_twice_instance :
    ((send_message_strict "m1" 5
        ⟨some "aaaaaaaaaaaaaaaaaaaaaaaa", some "bbbbbbbbbbbbbbbbbbbbbbbb",
          some "hi", none, none⟩ []).2.filter
        (fun e => e.channel == "bbbbbbbbbbbbbbbbbbbbbbbb")).length = 2 := by
  exact ((send_message_strict_emits_twice "m1" 5 "aaaaaaaaaaaaaaaaaaaaaaaa"
    "bbbbbbbbbbbbbbbbbbbbbbbb" (some "hi") none none [] (by decide) (by decide)).2
    (by decide)).1

/-- The user store, in insertion order (the document collection). -/
abbrev UserDB := List User

/-- User.findOne({email}): the first stored user carrying that email. -/
def findOneByEmail (db : UserDB) (email : String) : Option User :=
  db.find? (fun u => u.email == email)

/-- An HTTP response of the JSON routes: status code, the error-message body
when one is sent, and the user summary when one is sent. -/
structure HttpResp where
  status : Nat
  message : Option String
  user : Option UserSummary
deriving Repr, DecidableEq

/-- POST /api/auth/register of the strict iteration (part_000 lines 65-84),
parametrized by the external credential-hash function and by the fresh id the
store assigns: 400 when a required field is falsy, 409 when the email is
already stored, else the user is persisted with the hashed password and the
route answers 201 with the summary.  Returns the response and the new store. -/
def register (hash : String → String) (newId : String)
    (name email password avatarImage : Option String) (db : UserDB) :
    HttpResp × UserDB :=
  if !truthy name || !truthy email || !truthy password then
    (⟨400, some "Заполните все обязательные поля", none⟩, db)
  else
    match findOneByEmail db (email.getD "") with
    | some _ => (⟨409, some "Пользователь уже существует", none⟩, db)
    | none =>
      let u : User := { _id := newId, name := name.getD "", email := email.getD "",
                        password := hash (password.getD ""), avatarImage := avatarImage }
      (⟨201, none, some (summaryOf u)⟩, db ++ [u])

/-- POST /api/auth/login of the strict iteration (part_000 lines 86-104):
401 with the fixed message when no user carries the email; otherwise
bcrypt.compare of the supplied password against the stored hash decides
between 200 with the summary and the same 401 response. -/
def login (hash : String → String) (email password : String) (db : UserDB) :
    HttpResp :=
  match findOneByEmail db email with
  | none => ⟨401, some "Неверные данные", none⟩
  | some u =>
    if hash password == u.password then ⟨200, none, some (summaryOf u)⟩
    else ⟨401, some "Неверные данные", none⟩

/-- Claim C4: when registration answers 201, logging in right after with the
same email and password answers 200 carrying exactly the id assigned at
registration; with any other password the login answers 401, and a login for
an email no stored user carries answers 401 as well.  The credential hash is
the external bcrypt pair, embedded as an abstract collision-free function. -/
theorem register_login_roundtrip (hash : String → String)
    (hinj : Function.Injective hash) (newId n e p : String) (a : Option String)
    (db : UserDB)
    (h201 : (register hash newId (some n) (some e) (some p) a db).1.status = 201) :
    (login hash e p (register hash newId (some n) (some e) (some p) a db).2).status = 200 ∧
    (login hash e p (register hash newId (some n) (some e) (some p) a db).2).user
      = some ⟨newId, n, e, a⟩ ∧
    (∀ q, q ≠ p →
      (login hash e q (register hash newId (some n) (some e) (some p) a db).2).status = 401) ∧
    (∀ e2 q, findOneByEmail (register hash newId (some n) (some e) (some p) a db).2 e2 = none →
      (login hash e2 q (register hash newId (some n) (some e) (some p) a db).2).status = 401) := by
  cases hg : (!truthy (some n) || !truthy (some e) || !truthy (some p)) with
  | true =>
    rw [register] at h201
    simp only [hg, if_true] at h201
    simp at h201
  | false =>
    cases hf : findOneByEmail db e with
    | some u0 =>
      rw [register] at h201
      simp only [hg, Bool.false_eq_true, if_false, Option.getD_some, hf] at h201
      simp at h201
    | none =>
      have hreg : register hash newId (some n) (some e) (some p) a db
          = (⟨201, none, some ⟨newId, n, e, a⟩⟩,
             db ++ [⟨newId, n, e, hash p, a⟩]) := by
        rw [register]
        simp only [hg, Bool.false_eq_true, if_false, Option.getD_some, hf]
        rfl
      have hfind : findOneByEmail (db ++ [(⟨newId, n, e, hash p, a⟩ : User)]) e
          = some ⟨newId, n, e, hash p, a⟩ := by
        rw [findOneByEmail] at hf
        rw [findOneByEmail, List.find?_append, hf]
        simp
      refine ⟨?_, ?_, ?_, ?_⟩
      · rw [hreg]
        simp [login, hfind]
      · rw [hreg]
        simp [login, hfind, summaryOf]
      · intro q hq
        have hne : (hash q == hash p) = false := by
          cases hb : hash q == hash p with
          | false => rfl
          | true => exact absurd (hinj (eq_of_beq hb)) hq
        rw [hreg]
        simp [login, hfind, hne]
      · intro e2 q hnone
        rw [hreg] at hnone ⊢
        simp [login, hnone]

/-- Concrete instance of C4: after registering an account (the hash embedded
by the identity function, which is injective), the same credentials log in
with status 200 and a different password gets 401. -/
theorem register_login_roundtrip_instance :
    (register (fun x => x) "aaaaaaaaaaaaaaaaaaaaaaaa" (some "Alice") (some "alice@x.com")
        (some "pw1") none []).1.status = 201 ∧
    (login (fun x => x) "alice@x.com" "pw1"
        (register (fun x => x) "aaaaaaaaaaaaaaaaaaaaaaaa" (some "Alice") (some "alice@x.com")
          (some "pw1") none []).2).status = 200 ∧
    (login (fun x => x) "alice@x.com" "pw2"
        (register (fun x => x) "aaaaaaaaaaaaaaaaaaaaaaaa" (some "Alice") (some "alice@x.com")
          (some "pw1") none []).2).status = 401 := by
  have h := register_login_roundtrip (fun x => x) (fun x y hxy => hxy)
    "aaaaaaaaaaaaaaaaaaaaaaaa" "Alice" "alice@x.com" "pw1" none [] (by decide)
  exact ⟨by decide, h.1, h.2.2.1 "pw2" (by decide)⟩

/-- Claim C7: a login for an email no stored user carries and a login for a
stored email with a password whose hash does not match the stored hash
produce the very same response record: status 401 with the identical
message body, so the two failure causes are indistinguishable to the caller. -/
theorem login_failures_indistinguishable (hash : String → String) (db : UserDB)
    (e1 p1 e2 p2 : String) (u : User)
    (h1 : findOneByEmail db e1 = none)
    (h2 : findOneByEmail db e2 = some u)
    (h3 : hash p2 ≠ u.password) :
    login hash e1 p1 db = login hash e2 p2 db ∧
    (login hash e1 p1 db).status = 401 ∧
    (login hash e1 p1 db).message = some "Неверные данные" := by
  have hne : (hash p2 == u.password) = false := by
    cases hb : hash p2 == u.password with
    | false => rfl
    | true => exact absurd (eq_of_beq hb) h3
  refine ⟨?_, ?_, ?_⟩ <;> simp [login, h1, h2, hne]

/-- Concrete instance of C7: with one stored user, an unknown email and a
wrong password for the known email get byte-identical 401 responses. -/
theorem login_failures_indistinguishable_instance :
    login (fun x => x) "nobody@x.com" "pw"
        [⟨"aaaaaaaaaaaaaaaaaaaaaaaa", "Alice", "alice@x.com", "pw1", none⟩]
      = login (fun x => x) "alice@x.com" "wrong"
        [⟨"aaaaaaaaaaaaaaaaaaaaaaaa", "Alice", "alice@x.com", "pw1", none⟩] := by
  exact (login_failures_indistinguishable (fun x => x)
    [⟨"aaaaaaaaaaaaaaaaaaaaaaaa", "Alice", "alice@x.com", "pw1", none⟩]
    "nobody@x.com" "pw" "alice@x.com" "wrong"
    ⟨"aaaaaaaaaaaaaaaaaaaaaaaa", "Alice", "alice@x.com", "pw1", none⟩
    (by decide) (by decide) (by decide)).1

/-- A live transport session: its channel-subscription set (the transport
keeps the socket's rooms as a set, embedded here as a duplicate-free list in
join order) together with the identity, if any, the client authenticated as
over the HTTP login — carried along only to state that the socket layer never
consults it. -/
structure Session where
  authedAs : Option String
  rooms : List String
deriving Repr, DecidableEq

/-- Embeds socket.join of the transport: adds the session to the named room;
a room the session already belongs to is not added again. -/
def socketJoin (s : Session) (room : String) : Session :=
  if room ∈ s.rooms then s else { s with rooms := s.rooms ++ [room] }

/-- join handler of the strict-validation iteration (part_000 lines 139-146):
returns silently — the session untouched, nothing sent to the client — unless
userId is truthy and passes identity-reference validation, in which case the
session joins room String(userId). -/
def join_strict (s : Session) (userId : Option String) : Session :=
  if truthy userId && isValidOpt userId then socketJoin s (userId.getD "") else s

/-- join handler of both server.js iterations (lines 113-117 and 274-278,
which are the same code): returns silently only when userId is falsy; any
truthy userId, well-formed or not, joins room String(userId). -/
def join_lenient (s : Session) (userId : Option String) : Session :=
  if truthy userId then socketJoin s (userId.getD "") else s

/-- The events the transport delivers to a session: every emission whose
channel the session is subscribed to, in emission order. -/
def deliveredEvents (s : Session) (emits : List Emit) : List Emit :=
  emits.filter (fun e => s.rooms.contains e.channel)

/-- How often a single emission reaches a session: once per matching
subscription entry, so exactly once when the subscription set is
duplicate-free and contains the emission's channel. -/
def deliverCount (s : Session) (e : Emit) : Nat :=
  s.rooms.count e.channel

theorem socketJoin_idem (s : Session) (room : String) :
    socketJoin (socketJoin s room) room = socketJoin s room := by
  by_cases h : room ∈ s.rooms <;> simp [socketJoin, h]

theorem socketJoin_nodup (s : Session) (room : String) (h : s.rooms.Nodup) :
    (socketJoin s room).rooms.Nodup := by
  by_cases hm : room ∈ s.rooms
  · simpa [socketJoin, hm] using h
  · simp only [socketJoin, hm, if_false]
    rw [List.nodup_append]
    refine ⟨h, List.nodup_singleton room, ?_⟩
    intro x hx hx2
    have hxr : x = room := by simpa using hx2
    exact hm (hxr ▸ hx)

theorem socketJoin_mem (s : Session) (room : String) :
    room ∈ (socketJoin s room).rooms := by
  by_cases hm : room ∈ s.rooms <;> simp [socketJoin, hm]

/-- Claim C5: join is idempotent — a second join with the same userId leaves
exactly the subscription set of the first, in the strict and in the lenient
iterations alike — the subscription set stays duplicate-free, and an event
addressed to the joined user's channel is then delivered to the session
exactly once, not twice. -/
theorem join_idempotent (s : Session) (u : Option String)
    (hnd : s.rooms.Nodup) :
    join_strict (join_strict s u) u = join_strict s u ∧
    join_lenient (join_lenient s u) u = join_lenient s u ∧
    (join_strict s u).rooms.Nodup ∧
    (∀ uid, u = some uid → isValidObjectId uid = true →
      ∀ e : Emit, e.channel = uid →
        deliverCount (join_strict (join_strict s u) u) e = 1) := by
  refine ⟨?_, ?_, ?_, ?_⟩
  · by_cases hb : (truthy u && isValidOpt u) = true
    · simp [join_strict, hb, socketJoin_idem]
    · simp [join_strict, hb]
  · by_cases hb : truthy u = true
    · simp [join_lenient, hb, socketJoin_idem]
    · simp [join_lenient, hb]
  · by_cases hb : (truthy u && isValidOpt u) = true
    · simp only [join_strict, hb, if_true]
      exact socketJoin_nodup s _ hnd
    · simpa [join_strict, hb] using hnd
  · rintro uid rfl hval e he
    have hvo : isValidOpt (some uid) = true := by simpa [isValidOpt] using hval
    have ht : truthy (some uid) = true := truthy_of_validOpt _ hvo
    have hb : (truthy (some uid) && isValidOpt (some uid)) = true := by
      simp [ht, hvo]
    simp only [join_strict, hb, if_true, socketJoin_idem]
    rw [deliverCount, he]
    have hmem : uid ∈ (socketJoin s ((some uid).getD "")).rooms := by
      simpa using socketJoin_mem s uid
    have hnd2 : (socketJoin s ((some uid).getD "")).rooms.Nodup :=
      socketJoin_nodup s _ hnd
    exact List.count_eq_one_of_mem hnd2 hmem

/-- Concrete instance of C5: joining the same well-formed id twice from a
fresh session equals joining once, and an event on that channel is delivered
exactly once. -/
theorem join_idempotent_instance :
    join_strict (join_strict ⟨none, []⟩ (some "aaaaaaaaaaaaaaaaaaaaaaaa"))
        (some "aaaaaaaaaaaaaaaaaaaaaaaa")
      = join_strict ⟨none, []⟩ (some "aaaaaaaaaaaaaaaaaaaaaaaa") ∧
    deliverCount
        (join_strict (join_strict ⟨none, []⟩ (some "aaaaaaaaaaaaaaaaaaaaaaaa"))
          (some "aaaaaaaaaaaaaaaaaaaaaaaa"))
        (Emit.mk "aaaaaaaaaaaaaaaaaaaaaaaa" "receive_message"
          (mkMessage "m" 0 "s" "aaaaaaaaaaaaaaaaaaaaaaaa" none none none)) = 1 := by
  have h := join_idempotent ⟨none, []⟩ (some "aaaaaaaaaaaaaaaaaaaaaaaa") (by simp)
  exact ⟨h.1, h.2.2.2 "aaaaaaaaaaaaaaaaaaaaaaaa" rfl (by decide) _ rfl⟩

/-- Counterexample to claim C6: the claim asserts that every join call with a
userId failing identity-reference validation creates no subscription, but the
server.js join handlers check only truthiness — the malformed id "zzz" fails
validation yet a fresh session ends up subscribed to channel "zzz". -/
theorem join_lenient_malformed_subscribes :
    isValidObjectId "zzz" = false ∧
    join_lenient ⟨none, []⟩ (some "zzz") ≠ (⟨none, []⟩ : Session) ∧
    "zzz" ∈ (join_lenient ⟨none, []⟩ (some "zzz")).rooms := by
  refine ⟨by decide, ?_, by decide⟩
  intro h
  have : "zzz" ∈ (join_lenient ⟨none, []⟩ (some "zzz")).rooms := by decide
  rw [h] at this
  simp at this

/-- Claim C6 as amended: in the strict-validation iteration, a join whose
userId is absent, empty or malformed leaves the session untouched (silently:
the handler returns normally and sends nothing) and a well-formed userId
subscribes the session to channel String(userId); in the server.js iterations
only an absent or empty userId is rejected — every truthy userId, well-formed
or not, is subscribed to channel String(userId). -/
theorem join_validation_by_iteration (s : Session) (u : Option String) :
    (truthy u = false ∨ isValidOpt u = false → join_strict s u = s) ∧
    (∀ uid, u = some uid → isValidObjectId uid = true →
      uid ∈ (join_strict s u).rooms ∧ (join_strict s u).authedAs = s.authedAs) ∧
    (truthy u = false → join_lenient s u = s) ∧
    (∀ uid, u = some uid → uid ≠ "" →
      uid ∈ (join_lenient s u).rooms) := by
  refine ⟨?_, ?_, ?_, ?_⟩
  · intro h
    have hb : (truthy u && isValidOpt u) = false := by
      rcases h with h | h <;> simp [h]
    simp [join_strict, hb]
  · rintro uid rfl hval
    have hvo : isValidOpt (some uid) = true := by simpa [isValidOpt] using hval
    have ht : truthy (some uid) = true := truthy_of_validOpt _ hvo
    constructor
    · simp only [join_strict, ht, hvo, Bool.and_self, if_true]
      simpa using socketJoin_mem s uid
    · simp only [join_strict, ht, hvo, Bool.and_self, if_true]
      by_cases hm : uid ∈ s.rooms <;> simp [socketJoin, hm]
  · intro h
    simp [join_lenient, h]
  · rintro uid rfl hne
    have ht : truthy (some uid) = true := by simp [truthy, hne]
    simp only [join_lenient, ht, if_true]
    simpa using socketJoin_mem s uid

/-- Concrete instance of the amended C6: the strict handler ignores the
malformed id "zzz" while the lenient one subscribes it; a well-formed id is
subscribed by the strict handler. -/
theorem join_validation_by_iteration_instance :
    join_strict ⟨none, []⟩ (some "zzz") = (⟨none, []⟩ : Session) ∧
    "aaaaaaaaaaaaaaaaaaaaaaaa"
      ∈ (join_strict ⟨none, []⟩ (some "aaaaaaaaaaaaaaaaaaaaaaaa")).rooms ∧
    "zzz" ∈ (join_lenient ⟨none, []⟩ (some "zzz")).rooms := by
  refine ⟨?_, ?_, ?_⟩
  · exact (join_validation_by_iteration ⟨none, []⟩ (some "zzz")).1
      (Or.inr (by decide))
  · exact ((join_validation_by_iteration ⟨none, []⟩
      (some "aaaaaaaaaaaaaaaaaaaaaaaa")).2.1 "aaaaaaaaaaaaaaaaaaaaaaaa" rfl (by decide)).1
  · exact (join_validation_by_iteration ⟨none, []⟩ (some "zzz")).2.2.2 "zzz" rfl (by decide)

/-- Claim C9: join checks no ownership — the subscription set join produces
does not depend on the identity the session authenticated as (none, the same
user, or anyone else), any well-formed userId is subscribed in the strict and
lenient iterations alike, every emission addressed to that user's channel is
afterwards delivered to the session, and two sessions with the same
subscription set receive exactly the same events, so what a session receives
depends only on the channel ids it presented to join. -/
theorem join_no_ownership_check (a1 a2 : Option String) (rooms : List String)
    (u : String) (hu : isValidObjectId u = true) :
    (join_strict ⟨a1, rooms⟩ (some u)).rooms = (join_strict ⟨a2, rooms⟩ (some u)).rooms ∧
    u ∈ (join_strict ⟨a1, rooms⟩ (some u)).rooms ∧
    u ∈ (join_lenient ⟨a1, rooms⟩ (some u)).rooms ∧
    (∀ emits, ∀ e ∈ emits, e.channel = u →
      e ∈ deliveredEvents (join_strict ⟨a1, rooms⟩ (some u)) emits) ∧
    (∀ s1 s2 : Session, s1.rooms = s2.rooms →
      ∀ emits, deliveredEvents s1 emits = deliveredEvents s2 emits) := by
  have hvo : isValidOpt (some u) = true := by simpa [isValidOpt] using hu
  have ht : truthy (some u) = true := truthy_of_validOpt _ hvo
  have hmem : ∀ a : Option String, u ∈ (join_strict ⟨a, rooms⟩ (some u)).rooms := by
    intro a
    simp only [join_strict, ht, hvo, Bool.and_self, if_true]
    simpa using socketJoin_mem ⟨a, rooms⟩ u
  refine ⟨?_, hmem a1, ?_, ?_, ?_⟩
  · simp only [join_strict, ht, hvo, Bool.and_self, if_true]
    by_cases hm : u ∈ rooms <;> simp [socketJoin, hm]
  · simp only [join_lenient, ht, if_true]
    simpa using socketJoin_mem ⟨a1, rooms⟩ u
  · intro emits e hin he
    rw [deliveredEvents, List.mem_filter]
    refine ⟨hin, ?_⟩
    rw [he]
    simpa [List.contains, List.elem_iff] using hmem a1
  · intro s1 s2 hr emits
    rw [deliveredEvents, deliveredEvents, hr]

/-- Concrete instance of C9: a session authenticated as nobody joins another
user's well-formed id and the emission addressed to that user is delivered
to it. -/
theorem join_no_ownership_check_instance :
    Emit.mk "bbbbbbbbbbbbbbbbbbbbbbbb" "receive_message"
        (mkMessage "m" 0 "s" "bbbbbbbbbbbbbbbbbbbbbbbb" none none none)
      ∈ deliveredEvents (join_strict ⟨none, []⟩ (some "bbbbbbbbbbbbbbbbbbbbbbbb"))
        [Emit.mk "bbbbbbbbbbbbbbbbbbbbbbbb" "receive_message"
          (mkMessage "m" 0 "s" "bbbbbbbbbbbbbbbbbbbbbbbb" none none none)] := by
  exact (join_no_ownership_check none (some "cccccccccccccccccccccccc") []
    "bbbbbbbbbbbbbbbbbbbbbbbb" (by decide)).2.2.2.1 _ _ (by simp) rfl

/-- The document update PUT /api/users/:id hands to findByIdAndUpdate: the
update object is { name, avatarImage } built from the request body, and keys
whose value is undefined are stripped by the store driver, so only the fields
the body supplies change; email and password are not in the update object. -/
def applyProfileUpdate (name avatarImage : Option String) (u : User) : User :=
  { u with
    name := match name with | some n => n | none => u.name,
    avatarImage := match avatarImage with | some a => some a | none => u.avatarImage }

/-- PUT /api/users/:id of the strict iteration (part_000 lines 106-133):
400 when the id fails identity-reference validation, 404 when no stored user
carries the id, else the supplied fields are applied to that user's document
and the route answers 200 with the updated summary.  Returns the response and
the new user store. -/
def updateUserRoute (userId : String) (name avatarImage : Option String)
    (db : UserDB) : HttpResp × UserDB :=
  if !isValidObjectId userId then
    (⟨400, some "Неверный формат ID пользователя", none⟩, db)
  else
    match db.find? (fun u => u._id == userId) with
    | none => (⟨404, some "Пользователь не найден", none⟩, db)
    | some u =>
      (⟨200, none, some (summaryOf (applyProfileUpdate name avatarImage u))⟩,
       db.map (fun v => if v._id == userId then applyProfileUpdate name avatarImage v else v))

theorem applyProfileUpdate_id (name avatarImage : Option String) (u : User) :
    (applyProfileUpdate name avatarImage u)._id = u._id := rfl

theorem applyProfileUpdate_email (name avatarImage : Option String) (u : User) :
    (applyProfileUpdate name avatarImage u).email = u.email := rfl

theorem applyProfileUpdate_password (name avatarImage : Option String) (u : User) :
    (applyProfileUpdate name avatarImage u).password = u.password := rfl

/-- Claim C8: the profile-update route answers 400 on a malformed id and 404
on an unknown id, both with the store untouched; on a stored id it answers
200 with the updated summary; and in every case the stored ids, emails and
credential hashes all stay exactly what they were, and any user other than
the addressed one keeps their whole record — only name and avatarImage of
the addressed user can change. -/
theorem update_user_frame (userId : String) (name avatarImage : Option String)
    (db : UserDB) :
    (isValidObjectId userId = false →
      updateUserRoute userId name avatarImage db
        = (⟨400, some "Неверный формат ID пользователя", none⟩, db)) ∧
    (isValidObjectId userId = true → db.find? (fun u => u._id == userId) = none →
      updateUserRoute userId name avatarImage db
        = (⟨404, some "Пользователь не найден", none⟩, db)) ∧
    (∀ u, isValidObjectId userId = true → db.find? (fun v => v._id == userId) = some u →
      (updateUserRoute userId name avatarImage db).1
        = ⟨200, none, some (summaryOf (applyProfileUpdate name avatarImage u))⟩) ∧
    ((updateUserRoute userId name avatarImage db).2.map (fun u => u._id)
      = db.map (fun u => u._id)) ∧
    ((updateUserRoute userId name avatarImage db).2.map (fun u => u.email)
      = db.map (fun u => u.email)) ∧
    ((updateUserRoute userId name avatarImage db).2.map (fun u => u.password)
      = db.map (fun u => u.password)) ∧
    (∀ v ∈ db, v._id ≠ userId → v ∈ (updateUserRoute userId name avatarImage db).2) := by
  refine ⟨?_, ?_, ?_, ?_, ?_, ?_, ?_⟩
  · intro h
    simp [updateUserRoute, h]
  · intro h hf
    simp [updateUserRoute, h, hf]
  · intro u h hf
    simp [updateUserRoute, h, hf]
  · cases h : isValidObjectId userId with
    | false => simp [updateUserRoute, h]
    | true =>
      cases hf : db.find? (fun u => u._id == userId) with
      | none => simp [updateUserRoute, h, hf]
      | some u =>
        simp only [updateUserRoute, h, Bool.not_true, Bool.false_eq_true, if_false, hf,
          List.map_map]
        refine List.map_congr_left ?_
        intro v _
        by_cases hv : (v._id == userId) = true <;>
          simp [Function.comp, hv, applyProfileUpdate_id]
  · cases h : isValidObjectId userId with
    | false => simp [updateUserRoute, h]
    | true =>
      cases hf : db.find? (fun u => u._id == userId) with
      | none => simp [updateUserRoute, h, hf]
      | some u =>
        simp only [updateUserRoute, h, Bool.not_true, Bool.false_eq_true, if_false, hf,
          List.map_map]
        refine List.map_congr_left ?_
        intro v _
        by_cases hv : (v._id == userId) = true <;>
          simp [Function.comp, hv, applyProfileUpdate_email]
  · cases h : isValidObjectId userId with
    | false => simp [updateUserRoute, h]
    | true =>
      cases hf : db.find? (fun u => u._id == userId) with
      | none => simp [updateUserRoute, h, hf]
      | some u =>
        simp only [updateUserRoute, h, Bool.not_true, Bool.false_eq_true, if_false, hf,
          List.map_map]
        refine List.map_congr_left ?_
        intro v _
        by_cases hv : (v._id == userId) = true <;>
          simp [Function.comp, hv, applyProfileUpdate_password]
  · intro v hv hne
    cases h : isValidObjectId userId with
    | false => simpa [updateUserRoute, h] using hv
    | true =>
      cases hf : db.find? (fun u => u._id == userId) with
      | none => simpa [updateUserRoute, h, hf] using hv
      | some u =>
        simp only [updateUserRoute, h, Bool.not_true, Bool.false_eq_true, if_false, hf]
        have hb : (v._id == userId) = false := by simp [hne]
        refine List.mem_map.mpr ⟨v, hv, ?_⟩
        simp [hb]

/-- Concrete instance of C8: a malformed id gets 400 and leaves the store as
it was; the other user of the store survives a successful update of the
first untouched. -/
theorem update_user_frame_instance :
    updateUserRoute "zzz" (some "N") none
        [⟨"aaaaaaaaaaaaaaaaaaaaaaaa", "Alice", "alice@x.com", "h1", none⟩]
      = (⟨400, some "Неверный формат ID пользователя", none⟩,
         [⟨"aaaaaaaaaaaaaaaaaaaaaaaa", "Alice", "alice@x.com", "h1", none⟩]) ∧
    (⟨"bbbbbbbbbbbbbbbbbbbbbbbb", "Bob", "bob@x.com", "h2", none⟩ : User)
      ∈ (updateUserRoute "aaaaaaaaaaaaaaaaaaaaaaaa" (some "N") none
          [⟨"aaaaaaaaaaaaaaaaaaaaaaaa", "Alice", "alice@x.com", "h1", none⟩,
           ⟨"bbbbbbbbbbbbbbbbbbbbbbbb", "Bob", "bob@x.com", "h2", none⟩]).2 := by
  constructor
  · exact (update_user_frame "zzz" (some "N") none
      [⟨"aaaaaaaaaaaaaaaaaaaaaaaa", "Alice", "alice@x.com", "h1", none⟩]).1 (by decide)
  · exact (update_user_frame "aaaaaaaaaaaaaaaaaaaaaaaa" (some "N") none
      [⟨"aaaaaaaaaaaaaaaaaaaaaaaa", "Alice", "alice@x.com", "h1", none⟩,
       ⟨"bbbbbbbbbbbbbbbbbbbbbbbb", "Bob", "bob@x.com", "h2", none⟩]).2.2.2.2.2.2
      ⟨"bbbbbbbbbbbbbbbbbbbbbbbb", "Bob", "bob@x.com", "h2", none⟩ (by simp) (by decide)

/-- Modelled from the spec: the Room record of the Room Directory (spec §3) —
the group/room iterations of this repository are not among the source files,
only the spec describes them.  A Room carries an opaque id, a name, its
variant kind, an optional avatar, the creator and the members and admins
sets. -/
structure Room where
  _id : String
  name : String
  kind : String
  avatar : Option String
  creator : String
  members : List String
  admins : List String
deriving Repr, DecidableEq

/-- Modelled from the spec: createRoom (spec §4.2) produces a new Room whose
members are {creator} ∪ initialMembers with duplicates collapsed and whose
admins are {creator}. -/
def createRoom (newId roomName kind : String) (avatar : Option String)
    (creator : String) (initialMembers : List String) : Room :=
  { _id := newId, name := roomName, kind := kind, avatar := avatar,
    creator := creator, members := (creator :: initialMembers).dedup,
    admins := [creator] }

/-- Modelled from the spec: listRoomsForUser (spec §4.2) returns every Room of
the directory whose members set contains userId. -/
def listRoomsForUser (userId : String) (directory : List Room) : List Room :=
  directory.filter (fun r => r.members.contains userId)

/-- Modelled from the spec: at connect time a session subscribes to exactly
the channels of the rooms listRoomsForUser returns (spec §4.1–4.2), one
channel per room id. -/
def roomChannelsOnConnect (userId : String) (directory : List Room) : List String :=
  (listRoomsForUser userId directory).map (fun r => r._id)

/-- Claim C10 (settled against the spec-modelled Room Directory): a room
created with creator C and initial members M is listed by listRoomsForUser x,
for any directory holding the room, exactly when x is C or one of M — for
every such x and for no other user — and a reconnecting session's room
channels are exactly the ids of the rooms whose members contain the user, so
membership alone decides the room channels a session subscribes to. -/
theorem createRoom_listed_for_members (newId roomName kind : String)
    (avatar : Option String) (creator : String) (initialMembers : List String)
    (directory : List Room) (x : String)
    (hmem : createRoom newId roomName kind avatar creator initialMembers ∈ directory) :
    (createRoom newId roomName kind avatar creator initialMembers
        ∈ listRoomsForUser x directory ↔ x = creator ∨ x ∈ initialMembers) ∧
    (∀ u dir c, c ∈ roomChannelsOnConnect u dir ↔
      ∃ r ∈ dir, u ∈ r.members ∧ r._id = c) := by
  constructor
  · rw [listRoomsForUser, List.mem_filter]
    constructor
    · rintro ⟨-, hx⟩
      have : x ∈ (createRoom newId roomName kind avatar creator initialMembers).members := by
        simpa [List.contains, List.elem_iff] using hx
      simpa [createRoom, List.mem_dedup] using this
    · intro hx
      refine ⟨hmem, ?_⟩
      have : x ∈ (createRoom newId roomName kind avatar creator initialMembers).members := by
        simpa [createRoom, List.mem_dedup] using hx
      simpa [List.contains, List.elem_iff] using this
  · intro u dir c
    rw [roomChannelsOnConnect, listRoomsForUser]
    constructor
    · intro hc
      rcases List.mem_map.mp hc with ⟨r, hr, hid⟩
      rcases List.mem_filter.mp hr with ⟨hrdir, hru⟩
      exact ⟨r, hrdir, by simpa [List.contains, List.elem_iff] using hru, hid⟩
    · rintro ⟨r, hrdir, hru, hid⟩
      exact List.mem_map.mpr ⟨r, List.mem_filter.mpr
        ⟨hrdir, by simpa [List.contains, List.elem_iff] using hru⟩, hid⟩

/-- Concrete instance of C10: the room "T" created by alice with bob as
initial member is listed for bob, and the connect-time channels of bob are
exactly that room's id. -/
theorem createRoom_listed_for_members_instance :
    createRoom "r1" "T" "group" none "alice" ["bob"]
      ∈ listRoomsForUser "bob" [createRoom "r1" "T" "group" none "alice" ["bob"]] ∧
    "r1" ∈ roomChannelsOnConnect "bob" [createRoom "r1" "T" "group" none "alice" ["bob"]] := by
  have h := createRoom_listed_for_members "r1" "T" "group" none "alice" ["bob"]
    [createRoom "r1" "T" "group" none "alice" ["bob"]] "bob" (by simp)
  refine ⟨h.1.mpr (Or.inr (by simp)), ?_⟩
  exact (h.2 "bob" [createRoom "r1" "T" "group" none "alice" ["bob"]] "r1").mpr
    ⟨createRoom "r1" "T" "group" none "alice" ["bob"], by simp, by decide, rfl⟩
